import Mathlib

/-!
Verification of the AWS resource-governor sweep (`src/lambda_function.py`)
against its natural-language specification.

The Python module is shallowly embedded below.  The cloud provider's state
for one region (instances, autoscaling groups, and which API calls fail) is
a `RegionState`; each Python function becomes a Lean function over that
state.  API calls that mutate provider state (`stop_instances`,
`update_auto_scaling_group`) are modelled as state transformers, so sweep
functions return their Python return value paired with the post-sweep
provider state.  Exceptions raised by the provider are modelled by explicit
fault fields in `RegionState` (a call raises iff its fault field says so);
`process_region`, whose client construction can raise to the caller,
returns `Except`.
-/

/-- A provider tag attached to an instance or an autoscaling group. -/
structure Tag where
  key : String
  value : String
deriving DecidableEq

/-- An EC2 instance as seen through `describe_instances` /
`describe_instance_attribute` / `describe_tags`. -/
structure Instance where
  instanceId : String
  state : String
  instanceType : String
  disableApiStop : Bool
  tags : List Tag
deriving DecidableEq

/-- One reservation of the `describe_instances` response; the Python code
iterates `response['Reservations']` and then `reservation['Instances']`. -/
structure Reservation where
  instances : List Instance
deriving DecidableEq

/-- An autoscaling group as seen through `describe_auto_scaling_groups`. -/
structure ASG where
  name : String
  desiredCapacity : Nat
  minSize : Nat
  maxSize : Nat
  tags : List Tag
deriving DecidableEq

/-- The provider-side state of one region together with the fault behaviour
of each API call used by the sweep.  A call raises an exception exactly when
its fault field below says so; this models `except Exception` branches. -/
structure RegionState where
  reservations : List Reservation
  asgs : List ASG
  /-- `ec2.describe_instances` raises. -/
  describeInstancesFails : Bool := false
  /-- the `describe_auto_scaling_groups` pagination raises. -/
  describeAsgsFails : Bool := false
  /-- instance ids for which `ec2.describe_instance_attribute` raises. -/
  attrCheckFails : List String := []
  /-- instance ids for which the instance-scoped `ec2.describe_tags` raises. -/
  instanceTagsFails : List String := []
  /-- group names for which `autoscaling.describe_tags` raises. -/
  asgTagsFails : List String := []
  /-- instance ids for which `ec2.stop_instances` raises. -/
  stopFails : List String := []
  /-- group names for which `autoscaling.update_auto_scaling_group` raises. -/
  updateFails : List String := []
  /-- `boto3.client('ec2', region_name=region)` raises. -/
  ec2ClientFails : Bool := false
  /-- `boto3.client('autoscaling', region_name=region)` raises. -/
  asgClientFails : Bool := false
deriving DecidableEq

/-- Python `str.lower()`, restricted to the ASCII case mapping. -/
def pyLower (s : String) : String :=
  String.mk (s.toList.map Char.toLower)

/-- A Python whitespace character as removed by `str.strip()`. -/
def isPySpace (c : Char) : Bool :=
  c == ' ' || c == '\t' || c == '\n' || c == '\r' || c == '\x0b' || c == '\x0c'

/-- Python `str.strip()`: drop leading and trailing whitespace. -/
def pyStrip (s : String) : String :=
  String.mk (((s.toList.dropWhile isPySpace).reverse.dropWhile isPySpace).reverse)

/-- Helper for `pySplit`: accumulate the current field (reversed) while
scanning the character list. -/
def pySplitAux (sep : Char) : List Char → List Char → List String
  | [], cur => [String.mk cur.reverse]
  | c :: cs, cur =>
    if c == sep then String.mk cur.reverse :: pySplitAux sep cs []
    else pySplitAux sep cs (c :: cur)

/-- Python `str.split(sep)` for a one-character separator; in particular
`pySplit "" sep = [""]`, matching Python. -/
def pySplit (s : String) (sep : Char) : List String :=
  pySplitAux sep s.toList []

/-- All instances of the region in enumeration order (the flattening of the
reservation structure performed by the nested `for` loops). -/
def allInstances (r : RegionState) : List Instance :=
  (r.reservations.map Reservation.instances).flatten

/-- Provider lookup backing `ec2.describe_instance_attribute`: the first
instance with the given id, if any. -/
def findInstance (r : RegionState) (instance_id : String) : Option Instance :=
  (allInstances r).find? (fun i => i.instanceId == instance_id)

/-- `is_instance_stop_protected` (lines 108-145).  Checks the
`disableApiStop` attribute, then the `ResourceGovernance` tag; any
exception inside the `try` block (attribute call raising, unknown
instance id, tag call raising) makes the function return `True`. -/
def is_instance_stop_protected (r : RegionState) (instance_id : String) : Bool :=
  if r.attrCheckFails.contains instance_id then true
  else
    match findInstance r instance_id with
    | none => true
    | some inst =>
      if inst.disableApiStop then true
      else if r.instanceTagsFails.contains instance_id then true
      else if (inst.tags.filter (fun t => t.key == "ResourceGovernance")).any
          (fun t => pyLower t.value == "keep") then true
      else false

/-- `is_asg_protected` (lines 148-176).  `autoscaling.describe_tags` with the
`auto-scaling-group` and `key` filters returns the `ResourceGovernance` tags
of every group with the given name; a raising call makes the function
return `True`. -/
def is_asg_protected (r : RegionState) (asg_name : String) : Bool :=
  if r.asgTagsFails.contains asg_name then true
  else
    let tags := ((r.asgs.filter (fun a => a.name == asg_name)).map ASG.tags).flatten
    if (tags.filter (fun t => t.key == "ResourceGovernance")).any
        (fun t => pyLower t.value == "keep") then true
    else false

/-- The `"<id> (<region>)"` strings appended to `stopped_instances`. -/
def instanceLabel (instance_id region : String) : String :=
  instance_id ++ " (" ++ region ++ ")"

/-- The `"<name> (<region>)"` strings appended to `scaled_down_asgs`. -/
def asgLabel (asg_name region : String) : String :=
  asg_name ++ " (" ++ region ++ ")"

/-- Effect of a successful `ec2.stop_instances(InstanceIds=[iid])` on one
instance record. -/
def stopEntry (instance_id : String) (i : Instance) : Instance :=
  if i.instanceId == instance_id then { i with state := "stopped" } else i

/-- Effect of a successful `ec2.stop_instances(InstanceIds=[iid])` on the
region: the instance with that id is no longer running. -/
def stop_instances (r : RegionState) (instance_id : String) : RegionState :=
  { r with reservations :=
      r.reservations.map (fun res => ⟨res.instances.map (stopEntry instance_id)⟩) }

/-- One iteration of the instance loop in `stop_idle_instances`
(lines 200-216): skip protected instances; attempt the stop; a raising stop
call is printed only (the failure message is not recorded anywhere) and the
loop continues. -/
def stopOne (region : String) (acc : List String × RegionState) (inst : Instance) :
    List String × RegionState :=
  if is_instance_stop_protected acc.2 inst.instanceId then acc
  else if acc.2.stopFails.contains inst.instanceId then acc
  else (acc.1 ++ [instanceLabel inst.instanceId region], stop_instances acc.2 inst.instanceId)

/-- The `describe_instances` response with the `instance-state-name =
running` filter: only running instances are returned, reservation by
reservation, flattened by the nested loops. -/
def runningInstances (r : RegionState) : List Instance :=
  (r.reservations.map (fun res => res.instances.filter (fun i => i.state == "running"))).flatten

/-- `stop_idle_instances` (lines 179-221).  If the `describe_instances`
call raises, the exception is printed and the empty list is returned
(no error is recorded).  Otherwise every enumerated running instance is
processed in order by `stopOne`. -/
def stop_idle_instances (r : RegionState) (region : String) :
    List String × RegionState :=
  if r.describeInstancesFails then ([], r)
  else (runningInstances r).foldl (stopOne region) ([], r)

/-- Effect of a successful `autoscaling.update_auto_scaling_group` call on
one group record. -/
def scaleEntry (asg_name : String) (minSize maxSize desiredCapacity : Nat) (a : ASG) : ASG :=
  if a.name == asg_name then
    { a with minSize := minSize, maxSize := maxSize, desiredCapacity := desiredCapacity }
  else a

/-- Effect of a successful
`autoscaling.update_auto_scaling_group(AutoScalingGroupName=.., MinSize=..,
MaxSize=.., DesiredCapacity=..)` on the region. -/
def update_auto_scaling_group (r : RegionState) (asg_name : String)
    (minSize maxSize desiredCapacity : Nat) : RegionState :=
  { r with asgs := r.asgs.map (scaleEntry asg_name minSize maxSize desiredCapacity) }

/-- One iteration of the group loop in `scale_down_asgs` (lines 242-265):
skip protected groups; if the snapshot `DesiredCapacity` is positive,
attempt the update passing the snapshot `MaxSize` through unchanged; a
raising update call is printed only and the loop continues; groups already
at zero capacity are logged and skipped. -/
def scaleOne (region : String) (acc : List String × RegionState) (asg : ASG) :
    List String × RegionState :=
  if is_asg_protected acc.2 asg.name then acc
  else if 0 < asg.desiredCapacity then
    if acc.2.updateFails.contains asg.name then acc
    else (acc.1 ++ [asgLabel asg.name region],
          update_auto_scaling_group acc.2 asg.name 0 asg.maxSize 0)
  else acc

/-- `scale_down_asgs` (lines 224-270).  If the pagination raises, the
exception is printed and the empty list is returned (no error recorded);
otherwise every enumerated group is processed in order by `scaleOne`. -/
def scale_down_asgs (r : RegionState) (region : String) :
    List String × RegionState :=
  if r.describeAsgsFails then ([], r)
  else r.asgs.foldl (scaleOne region) ([], r)

/-- The per-region result dictionary built by `process_region`. -/
structure GovernanceResult where
  stopped_instances : List String
  scaled_down_asgs : List String
  errors : List String
deriving DecidableEq

/-- `process_region` (lines 67-105).  The two `boto3.client` calls happen
BEFORE the `try` block, so a raising client constructor propagates to the
caller (`Except.error`).  Both sweepers catch every exception internally
and are total, so the `except` branch of `process_region` (which would
append an error string) is unreachable and `errors` is always `[]`. -/
def process_region (r : RegionState) (region : String) :
    Except String (GovernanceResult × RegionState) :=
  if r.ec2ClientFails then
    Except.error ("could not create ec2 client in " ++ region)
  else if r.asgClientFails then
    Except.error ("could not create autoscaling client in " ++ region)
  else
    let si := stop_idle_instances r region
    let sd := scale_down_asgs si.2 region
    Except.ok ({ stopped_instances := si.1, scaled_down_asgs := sd.1, errors := [] }, sd.2)

/-- `get_allowed_regions` (lines 55-64): split the environment value (default
`us-east-1`) on commas, strip each field, drop empty fields. -/
def get_allowed_regions (allowedRegionsEnv : Option String) : List String :=
  let allowed_regions_str := allowedRegionsEnv.getD "us-east-1"
  ((pySplit allowed_regions_str ',').map pyStrip).filter (fun region => region != "")

/-- The aggregate dictionary built by `lambda_handler`. -/
structure AggregateResults where
  stopped_instances : List String
  scaled_down_asgs : List String
  errors : List String
  regions_processed : List String
deriving DecidableEq

/-- Provider state of every region; `lambda_handler` threads it through the
region loop. -/
structure World where
  state : String → RegionState

/-- One iteration of the region loop in `lambda_handler` (lines 33-47): on
success extend the three result lists and append the region to
`regions_processed`; on an exception append one error string and omit the
region. -/
def handleRegion (acc : AggregateResults × World) (region : String) :
    AggregateResults × World :=
  match process_region (acc.2.state region) region with
  | Except.ok (res, st) =>
    ({ stopped_instances := acc.1.stopped_instances ++ res.stopped_instances,
       scaled_down_asgs := acc.1.scaled_down_asgs ++ res.scaled_down_asgs,
       errors := acc.1.errors ++ res.errors,
       regions_processed := acc.1.regions_processed ++ [region] },
     ⟨fun n => if n == region then st else acc.2.state n⟩)
  | Except.error e =>
    ({ acc.1 with errors := acc.1.errors ++ ["Error processing region " ++ region ++ ": " ++ e] },
     acc.2)

/-- The HTTP-style envelope returned by `lambda_handler`; `json.dumps` of the
body is abstracted as the body record itself. -/
structure LambdaResponse where
  statusCode : Nat
  body : AggregateResults

/-- `lambda_handler` (lines 17-52): read the region list, run
`process_region` over it accumulating results, and always return a
`statusCode := 200` envelope. -/
def lambda_handler (w : World) (allowedRegionsEnv : Option String) :
    LambdaResponse × World :=
  let allowed_regions := get_allowed_regions allowedRegionsEnv
  let r := allowed_regions.foldl handleRegion
    ({ stopped_instances := [], scaled_down_asgs := [], errors := [],
       regions_processed := [] }, w)
  ({ statusCode := 200, body := r.1 }, r.2)

/-- The composite of the per-instance stop effects of a whole sweep. -/
def applyStops (r : RegionState) (ids : List String) : RegionState :=
  ids.foldl stop_instances r

/-- The composite of the per-group update effects of a whole sweep; each
pair is a group name with the snapshot `MaxSize` passed to the update. -/
def applyScales (r : RegionState) (ps : List (String × Nat)) : RegionState :=
  ps.foldl (fun s p => update_auto_scaling_group s p.1 0 p.2 0) r

/-- An enumerated instance for which the sweep attempts and completes a
stop call: unprotected and its stop call does not raise. -/
def instActed (r : RegionState) (i : Instance) : Bool :=
  !(is_instance_stop_protected r i.instanceId) && !(r.stopFails.contains i.instanceId)

/-- An enumerated group for which the sweep attempts and completes an
update call: unprotected, positive desired capacity, update does not raise. -/
def asgActed (r : RegionState) (a : ASG) : Bool :=
  !(is_asg_protected r a.name) && decide (0 < a.desiredCapacity)
    && !(r.updateFails.contains a.name)

/-- Ids of the instances stopped by one sweep of `r`. -/
def stopIds (r : RegionState) : List String :=
  ((runningInstances r).filter (instActed r)).map Instance.instanceId

/-- Name/snapshot-MaxSize pairs of the groups updated by one sweep of `r`. -/
def scalePairs (r : RegionState) : List (String × Nat) :=
  (r.asgs.filter (asgActed r)).map (fun a => (a.name, a.maxSize))

/-- Both `boto3.client` constructors succeed for this region state. -/
def okClients (r : RegionState) : Bool :=
  !r.ec2ClientFails && !r.asgClientFails

/-- A region holding one running unprotected instance whose stop call
raises. -/
def exC1 : RegionState :=
  { reservations := [⟨[⟨"i-1", "running", "t3.micro", false, []⟩]⟩],
    asgs := [],
    stopFails := ["i-1"] }

/-- A region whose ec2 client constructor raises. -/
def exC2 : RegionState :=
  { reservations := [],
    asgs := [],
    ec2ClientFails := true }

/-- A mixed sample region: a stoppable instance, a tag-protected instance,
a non-running instance, an instance whose stop raises, a scalable group, a
zero-capacity group and a tag-protected group. -/
def sampleRegion : RegionState :=
  { reservations := [⟨[⟨"i-1", "running", "t3.micro", false, []⟩,
                      ⟨"i-2", "running", "m5.large", false,
                        [⟨"ResourceGovernance", "KEEP"⟩]⟩,
                      ⟨"i-3", "stopped", "t2.nano", false, []⟩,
                      ⟨"i-4", "running", "c5.large", false, []⟩]⟩],
    asgs := [⟨"g-1", 3, 1, 5, []⟩,
             ⟨"g-2", 0, 0, 4, []⟩,
             ⟨"g-3", 2, 1, 7, [⟨"ResourceGovernance", "keep"⟩]⟩],
    stopFails := ["i-4"] }

/-- A region whose protection checks raise: the attribute call for `i-9`
and the group tag call for `g-9`. -/
def failRegion : RegionState :=
  { reservations := [⟨[⟨"i-9", "running", "t2.micro", false, []⟩]⟩],
    asgs := [⟨"g-9", 1, 0, 3, []⟩],
    attrCheckFails := ["i-9"],
    asgTagsFails := ["g-9"] }

/-- A world in which region `bad-1` has a failing ec2 client constructor
and every other region is the sample region. -/
def sampleWorld : World :=
  ⟨fun n => if n == "bad-1" then exC2 else sampleRegion⟩

lemma stopEntry_instanceId (j : String) (i : Instance) :
    (stopEntry j i).instanceId = i.instanceId := by
  unfold stopEntry; split <;> rfl

lemma stopEntry_disableApiStop (j : String) (i : Instance) :
    (stopEntry j i).disableApiStop = i.disableApiStop := by
  unfold stopEntry; split <;> rfl

lemma stopEntry_tags (j : String) (i : Instance) : (stopEntry j i).tags = i.tags := by
  unfold stopEntry; split <;> rfl

lemma stopEntry_instanceType (j : String) (i : Instance) :
    (stopEntry j i).instanceType = i.instanceType := by
  unfold stopEntry; split <;> rfl

lemma allInstances_stop_instances (r : RegionState) (j : String) :
    allInstances (stop_instances r j) = (allInstances r).map (stopEntry j) := by
  unfold allInstances stop_instances
  rw [List.map_map, List.map_flatten, List.map_map]
  rfl

lemma find?_map_stopEntry (j iid : String) (l : List Instance) :
    (l.map (stopEntry j)).find? (fun i => i.instanceId == iid) =
      (l.find? (fun i => i.instanceId == iid)).map (stopEntry j) := by
  induction l with
  | nil => rfl
  | cons a t ih =>
    simp only [List.map_cons, List.find?, stopEntry_instanceId]
    cases h : (a.instanceId == iid) <;> simp [h, ih]

lemma findInstance_stop_instances (r : RegionState) (j iid : String) :
    findInstance (stop_instances r j) iid = (findInstance r iid).map (stopEntry j) := by
  unfold findInstance
  rw [allInstances_stop_instances, find?_map_stopEntry]

lemma prot_stop_instances (r : RegionState) (j iid : String) :
    is_instance_stop_protected (stop_instances r j) iid = is_instance_stop_protected r iid := by
  unfold is_instance_stop_protected
  rw [show (stop_instances r j).attrCheckFails = r.attrCheckFails from rfl,
      show (stop_instances r j).instanceTagsFails = r.instanceTagsFails from rfl,
      findInstance_stop_instances]
  cases hf : findInstance r iid with
  | none => rfl
  | some inst =>
    simp only [Option.map_some', stopEntry_disableApiStop, stopEntry_tags]

lemma prot_applyStops (ids : List String) : ∀ (r : RegionState) (iid : String),
    is_instance_stop_protected (applyStops r ids) iid = is_instance_stop_protected r iid := by
  induction ids with
  | nil => intro r iid; rfl
  | cons j t ih =>
    intro r iid
    have h : applyStops r (j :: t) = applyStops (stop_instances r j) t := rfl
    rw [h, ih, prot_stop_instances]

lemma scaleEntry_name (nm : String) (mn mx dc : Nat) (a : ASG) :
    (scaleEntry nm mn mx dc a).name = a.name := by
  unfold scaleEntry; split <;> rfl

lemma scaleEntry_tags (nm : String) (mn mx dc : Nat) (a : ASG) :
    (scaleEntry nm mn mx dc a).tags = a.tags := by
  unfold scaleEntry; split <;> rfl

lemma filter_map_scaleEntry (nm n0 : String) (mn mx dc : Nat) (l : List ASG) :
    (l.map (scaleEntry n0 mn mx dc)).filter (fun a => a.name == nm) =
      (l.filter (fun a => a.name == nm)).map (scaleEntry n0 mn mx dc) := by
  induction l with
  | nil => rfl
  | cons a t ih =>
    simp only [List.map_cons, List.filter_cons, scaleEntry_name]
    cases h : (a.name == nm) <;> simp [h, ih]

lemma prot_update_asg (r : RegionState) (n0 : String) (mn mx dc : Nat) (nm : String) :
    is_asg_protected (update_auto_scaling_group r n0 mn mx dc) nm = is_asg_protected r nm := by
  unfold is_asg_protected update_auto_scaling_group
  rw [show ({ r with asgs := r.asgs.map (scaleEntry n0 mn mx dc) } : RegionState).asgTagsFails
        = r.asgTagsFails from rfl,
      show ({ r with asgs := r.asgs.map (scaleEntry n0 mn mx dc) } : RegionState).asgs
        = r.asgs.map (scaleEntry n0 mn mx dc) from rfl,
      filter_map_scaleEntry, List.map_map]
  have h : ASG.tags ∘ scaleEntry n0 mn mx dc = ASG.tags := by
    funext a; exact scaleEntry_tags n0 mn mx dc a
  rw [h]

lemma prot_inst_update (r : RegionState) (n0 : String) (mn mx dc : Nat) (iid : String) :
    is_instance_stop_protected (update_auto_scaling_group r n0 mn mx dc) iid =
      is_instance_stop_protected r iid := rfl

lemma prot_asg_stop_instances (r : RegionState) (j nm : String) :
    is_asg_protected (stop_instances r j) nm = is_asg_protected r nm := rfl

lemma prot_asg_applyStops (ids : List String) : ∀ (r : RegionState) (nm : String),
    is_asg_protected (applyStops r ids) nm = is_asg_protected r nm := by
  induction ids with
  | nil => intro r nm; rfl
  | cons j t ih =>
    intro r nm
    have h : applyStops r (j :: t) = applyStops (stop_instances r j) t := rfl
    rw [h, ih, prot_asg_stop_instances]

lemma prot_inst_applyScales (ps : List (String × Nat)) : ∀ (r : RegionState) (iid : String),
    is_instance_stop_protected (applyScales r ps) iid = is_instance_stop_protected r iid := by
  induction ps with
  | nil => intro r iid; rfl
  | cons p t ih =>
    intro r iid
    have h : applyScales r (p :: t) = applyScales (update_auto_scaling_group r p.1 0 p.2 0) t := rfl
    rw [h, ih, prot_inst_update]

lemma prot_asg_applyScales (ps : List (String × Nat)) : ∀ (r : RegionState) (nm : String),
    is_asg_protected (applyScales r ps) nm = is_asg_protected r nm := by
  induction ps with
  | nil => intro r nm; rfl
  | cons p t ih =>
    intro r nm
    have h : applyScales r (p :: t) = applyScales (update_auto_scaling_group r p.1 0 p.2 0) t := rfl
    rw [h, ih, prot_update_asg]

lemma applyStops_asgs : ∀ (ids : List String) (r : RegionState), (applyStops r ids).asgs = r.asgs
  | [], _ => rfl
  | j :: t, r => applyStops_asgs t (stop_instances r j)

lemma applyStops_stopFails : ∀ (ids : List String) (r : RegionState),
    (applyStops r ids).stopFails = r.stopFails
  | [], _ => rfl
  | j :: t, r => applyStops_stopFails t (stop_instances r j)

lemma applyStops_updateFails : ∀ (ids : List String) (r : RegionState),
    (applyStops r ids).updateFails = r.updateFails
  | [], _ => rfl
  | j :: t, r => applyStops_updateFails t (stop_instances r j)

lemma applyStops_describeInstancesFails : ∀ (ids : List String) (r : RegionState),
    (applyStops r ids).describeInstancesFails = r.describeInstancesFails
  | [], _ => rfl
  | j :: t, r => applyStops_describeInstancesFails t (stop_instances r j)

lemma applyStops_describeAsgsFails : ∀ (ids : List String) (r : RegionState),
    (applyStops r ids).describeAsgsFails = r.describeAsgsFails
  | [], _ => rfl
  | j :: t, r => applyStops_describeAsgsFails t (stop_instances r j)

lemma applyStops_ec2ClientFails : ∀ (ids : List String) (r : RegionState),
    (applyStops r ids).ec2ClientFails = r.ec2ClientFails
  | [], _ => rfl
  | j :: t, r => applyStops_ec2ClientFails t (stop_instances r j)

lemma applyStops_asgClientFails : ∀ (ids : List String) (r : RegionState),
    (applyStops r ids).asgClientFails = r.asgClientFails
  | [], _ => rfl
  | j :: t, r => applyStops_asgClientFails t (stop_instances r j)

lemma applyScales_reservations : ∀ (ps : List (String × Nat)) (r : RegionState),
    (applyScales r ps).reservations = r.reservations
  | [], _ => rfl
  | p :: t, r => applyScales_reservations t (update_auto_scaling_group r p.1 0 p.2 0)

lemma applyScales_stopFails : ∀ (ps : List (String × Nat)) (r : RegionState),
    (applyScales r ps).stopFails = r.stopFails
  | [], _ => rfl
  | p :: t, r => applyScales_stopFails t (update_auto_scaling_group r p.1 0 p.2 0)

lemma applyScales_updateFails : ∀ (ps : List (String × Nat)) (r : RegionState),
    (applyScales r ps).updateFails = r.updateFails
  | [], _ => rfl
  | p :: t, r => applyScales_updateFails t (update_auto_scaling_group r p.1 0 p.2 0)

lemma applyScales_describeInstancesFails : ∀ (ps : List (String × Nat)) (r : RegionState),
    (applyScales r ps).describeInstancesFails = r.describeInstancesFails
  | [], _ => rfl
  | p :: t, r => applyScales_describeInstancesFails t (update_auto_scaling_group r p.1 0 p.2 0)

lemma applyScales_describeAsgsFails : ∀ (ps : List (String × Nat)) (r : RegionState),
    (applyScales r ps).describeAsgsFails = r.describeAsgsFails
  | [], _ => rfl
  | p :: t, r => applyScales_describeAsgsFails t (update_auto_scaling_group r p.1 0 p.2 0)

lemma applyScales_ec2ClientFails : ∀ (ps : List (String × Nat)) (r : RegionState),
    (applyScales r ps).ec2ClientFails = r.ec2ClientFails
  | [], _ => rfl
  | p :: t, r => applyScales_ec2ClientFails t (update_auto_scaling_group r p.1 0 p.2 0)

lemma applyScales_asgClientFails : ∀ (ps : List (String × Nat)) (r : RegionState),
    (applyScales r ps).asgClientFails = r.asgClientFails
  | [], _ => rfl
  | p :: t, r => applyScales_asgClientFails t (update_auto_scaling_group r p.1 0 p.2 0)

lemma stopFold (region : String) (r0 : RegionState) :
    ∀ (l : List Instance) (acc : List String) (r : RegionState),
    (∀ iid, is_instance_stop_protected r iid = is_instance_stop_protected r0 iid) →
    r.stopFails = r0.stopFails →
    l.foldl (stopOne region) (acc, r) =
      (acc ++ (l.filter (instActed r0)).map (fun i => instanceLabel i.instanceId region),
       applyStops r ((l.filter (instActed r0)).map Instance.instanceId)) := by
  intro l
  induction l with
  | nil => intro acc r hp hs; simp [applyStops]
  | cons i t ih =>
    intro acc r hp hs
    rw [List.foldl_cons, List.filter_cons]
    cases hprot : is_instance_stop_protected r0 i.instanceId with
    | true =>
      have h1 : stopOne region (acc, r) i = (acc, r) := by
        unfold stopOne
        rw [show ((acc, r) : List String × RegionState).2 = r from rfl, hp, hprot]
        simp
      have hact : instActed r0 i = false := by unfold instActed; rw [hprot]; rfl
      rw [h1, ih acc r hp hs, hact]
      simp
    | false =>
      cases hsf : r0.stopFails.contains i.instanceId with
      | true =>
        have h1 : stopOne region (acc, r) i = (acc, r) := by
          unfold stopOne
          rw [show ((acc, r) : List String × RegionState).2 = r from rfl, hp, hprot, hs, hsf]
          simp
        have hact : instActed r0 i = false := by unfold instActed; rw [hprot, hsf]; rfl
        rw [h1, ih acc r hp hs, hact]
        simp
      | false =>
        have h1 : stopOne region (acc, r) i =
            (acc ++ [instanceLabel i.instanceId region], stop_instances r i.instanceId) := by
          unfold stopOne
          rw [show ((acc, r) : List String × RegionState).2 = r from rfl, hp, hprot, hs, hsf]
          simp
        have hact : instActed r0 i = true := by unfold instActed; rw [hprot, hsf]; rfl
        have hp' : ∀ iid, is_instance_stop_protected (stop_instances r i.instanceId) iid =
            is_instance_stop_protected r0 iid := by
          intro iid; rw [prot_stop_instances, hp]
        have hs' : (stop_instances r i.instanceId).stopFails = r0.stopFails := hs
        rw [h1, ih (acc ++ [instanceLabel i.instanceId region]) (stop_instances r i.instanceId) hp' hs',
            hact]
        have h2 : applyStops (stop_instances r i.instanceId)
              ((t.filter (instActed r0)).map Instance.instanceId) =
            applyStops r (((i :: t.filter (instActed r0)).map Instance.instanceId)) := rfl
        simp [h2]

lemma stop_idle_instances_eq (r : RegionState) (region : String) :
    stop_idle_instances r region =
      if r.describeInstancesFails then ([], r)
      else (((runningInstances r).filter (instActed r)).map
              (fun i => instanceLabel i.instanceId region),
            applyStops r (stopIds r)) := by
  unfold stop_idle_instances
  cases h : r.describeInstancesFails with
  | true => simp
  | false =>
    simp only [Bool.false_eq_true, if_false]
    rw [stopFold region r (runningInstances r) [] r (fun _ => rfl) rfl]
    simp [stopIds]

lemma scaleFold (region : String) (r0 : RegionState) :
    ∀ (l : List ASG) (acc : List String) (r : RegionState),
    (∀ nm, is_asg_protected r nm = is_asg_protected r0 nm) →
    r.updateFails = r0.updateFails →
    l.foldl (scaleOne region) (acc, r) =
      (acc ++ (l.filter (asgActed r0)).map (fun a => asgLabel a.name region),
       applyScales r ((l.filter (asgActed r0)).map (fun a => (a.name, a.maxSize)))) := by
  intro l
  induction l with
  | nil => intro acc r hp hs; simp [applyScales]
  | cons a t ih =>
    intro acc r hp hs
    rw [List.foldl_cons, List.filter_cons]
    cases hprot : is_asg_protected r0 a.name with
    | true =>
      have h1 : scaleOne region (acc, r) a = (acc, r) := by
        unfold scaleOne
        rw [show ((acc, r) : List String × RegionState).2 = r from rfl, hp, hprot]
        simp
      have hact : asgActed r0 a = false := by unfold asgActed; rw [hprot]; rfl
      rw [h1, ih acc r hp hs, hact]
      simp
    | false =>
      by_cases hdc : 0 < a.desiredCapacity
      · cases huf : r0.updateFails.contains a.name with
        | true =>
          have h1 : scaleOne region (acc, r) a = (acc, r) := by
            unfold scaleOne
            rw [show ((acc, r) : List String × RegionState).2 = r from rfl, hp, hprot, hs, huf]
            simp [hdc]
          have hact : asgActed r0 a = false := by
            unfold asgActed; rw [hprot, huf, decide_eq_true hdc]; rfl
          rw [h1, ih acc r hp hs, hact]
          simp
        | false =>
          have h1 : scaleOne region (acc, r) a =
              (acc ++ [asgLabel a.name region],
               update_auto_scaling_group r a.name 0 a.maxSize 0) := by
            unfold scaleOne
            rw [show ((acc, r) : List String × RegionState).2 = r from rfl, hp, hprot, hs, huf]
            simp [hdc]
          have hact : asgActed r0 a = true := by
            unfold asgActed; rw [hprot, huf, decide_eq_true hdc]; rfl
          have hp' : ∀ nm, is_asg_protected (update_auto_scaling_group r a.name 0 a.maxSize 0) nm =
              is_asg_protected r0 nm := by
            intro nm; rw [prot_update_asg, hp]
          have hs' : (update_auto_scaling_group r a.name 0 a.maxSize 0).updateFails =
              r0.updateFails := hs
          rw [h1, ih (acc ++ [asgLabel a.name region])
                (update_auto_scaling_group r a.name 0 a.maxSize 0) hp' hs', hact]
          have h2 : applyScales (update_auto_scaling_group r a.name 0 a.maxSize 0)
                ((t.filter (asgActed r0)).map (fun a => (a.name, a.maxSize))) =
              applyScales r (((a :: t.filter (asgActed r0)).map (fun a => (a.name, a.maxSize)))) :=
            rfl
          simp [h2]
      · have h1 : scaleOne region (acc, r) a = (acc, r) := by
          unfold scaleOne
          rw [show ((acc, r) : List String × RegionState).2 = r from rfl, hp, hprot]
          simp [hdc]
        have hact : asgActed r0 a = false := by
          unfold asgActed; rw [hprot, decide_eq_false hdc]; rfl
        rw [h1, ih acc r hp hs, hact]
        simp

lemma scale_down_asgs_eq (r : RegionState) (region : String) :
    scale_down_asgs r region =
      if r.describeAsgsFails then ([], r)
      else ((r.asgs.filter (asgActed r)).map (fun a => asgLabel a.name region),
            applyScales r (scalePairs r)) := by
  unfold scale_down_asgs
  cases h : r.describeAsgsFails with
  | true => simp
  | false =>
    simp only [Bool.false_eq_true, if_false]
    rw [scaleFold region r r.asgs [] r (fun _ => rfl) rfl]
    simp [scalePairs]

lemma process_region_ok (r : RegionState) (region : String)
    (h1 : r.ec2ClientFails = false) (h2 : r.asgClientFails = false) :
    process_region r region = Except.ok
      ({ stopped_instances := (stop_idle_instances r region).1,
         scaled_down_asgs := (scale_down_asgs (stop_idle_instances r region).2 region).1,
         errors := [] },
       (scale_down_asgs (stop_idle_instances r region).2 region).2) := by
  unfold process_region
  rw [h1, h2]
  simp

lemma process_region_err (r : RegionState) (region : String)
    (h : r.ec2ClientFails = true ∨ r.asgClientFails = true) :
    ∃ e, process_region r region = Except.error e := by
  unfold process_region
  by_cases h1 : r.ec2ClientFails = true
  · rw [h1]; simp
  · have h2 : r.asgClientFails = true := by
      cases h with
      | inl hh => exact absurd hh h1
      | inr hh => exact hh
    rw [h2, Bool.eq_false_iff.mpr h1]
    simp

lemma process_region_ok_flags (r : RegionState) (region : String)
    (res : GovernanceResult) (st : RegionState)
    (h : process_region r region = Except.ok (res, st)) :
    r.ec2ClientFails = false ∧ r.asgClientFails = false := by
  constructor
  · cases hf : r.ec2ClientFails with
    | false => rfl
    | true =>
      exfalso
      unfold process_region at h
      rw [hf] at h
      simp at h
  · cases hf : r.asgClientFails with
    | false => rfl
    | true =>
      exfalso
      unfold process_region at h
      rw [hf] at h
      by_cases h1 : r.ec2ClientFails = true <;> simp [h1] at h

lemma mem_runningInstances (r : RegionState) (i : Instance) :
    i ∈ runningInstances r ↔ i ∈ allInstances r ∧ i.state = "running" := by
  unfold runningInstances allInstances
  simp only [List.mem_flatten, List.mem_map, List.mem_filter, beq_iff_eq]
  constructor
  · rintro ⟨l, ⟨res, hres, rfl⟩, hi⟩
    rcases List.mem_filter.mp hi with ⟨hmem, hrun⟩
    exact ⟨⟨res.instances, ⟨res, hres, rfl⟩, hmem⟩, by simpa using hrun⟩
  · rintro ⟨⟨l, ⟨res, hres, rfl⟩, hi⟩, hrun⟩
    exact ⟨(res.instances.filter (fun i => i.state == "running")), ⟨res, hres, rfl⟩,
      List.mem_filter.mpr ⟨hi, by simpa using hrun⟩⟩

lemma mem_applyStops (ids : List String) : ∀ (r : RegionState) (i' : Instance),
    i' ∈ allInstances (applyStops r ids) →
    ∃ i, i ∈ allInstances r ∧ i'.instanceId = i.instanceId ∧
      i'.instanceType = i.instanceType ∧ i'.disableApiStop = i.disableApiStop ∧
      i'.tags = i.tags ∧
      ((i' = i ∧ i.instanceId ∉ ids) ∨ (i'.state = "stopped" ∧ i.instanceId ∈ ids)) := by
  induction ids with
  | nil =>
    intro r i' h
    exact ⟨i', h, rfl, rfl, rfl, rfl, Or.inl ⟨rfl, List.not_mem_nil _⟩⟩
  | cons j t ih =>
    intro r i' h
    have h' : i' ∈ allInstances (applyStops (stop_instances r j) t) := h
    rcases ih (stop_instances r j) i' h' with ⟨i1, hi1, hid, hty, hda, htg, hdisj⟩
    rw [allInstances_stop_instances] at hi1
    rcases List.mem_map.mp hi1 with ⟨i, hi, rfl⟩
    refine ⟨i, hi, hid.trans (stopEntry_instanceId j i),
      hty.trans (stopEntry_instanceType j i), hda.trans (stopEntry_disableApiStop j i),
      htg.trans (stopEntry_tags j i), ?_⟩
    cases hij : (i.instanceId == j) with
    | true =>
      have hije : i.instanceId = j := by simpa using hij
      rcases hdisj with ⟨heq, _⟩ | ⟨hst, _⟩
      · refine Or.inr ⟨?_, by rw [hije]; exact List.mem_cons_self _ _⟩
        rw [heq]
        unfold stopEntry
        rw [hij]
        rfl
      · exact Or.inr ⟨hst, by rw [hije]; exact List.mem_cons_self _ _⟩
    | false =>
      have hije : i.instanceId ≠ j := by simpa using hij
      have hent : stopEntry j i = i := by unfold stopEntry; rw [hij]; rfl
      rw [hent] at hdisj
      rcases hdisj with ⟨heq, hnm⟩ | ⟨hst, hm⟩
      · exact Or.inl ⟨heq, by simp [hije, hnm]⟩
      · exact Or.inr ⟨hst, List.mem_cons_of_mem _ hm⟩

lemma mem_applyStops_untouched (ids : List String) : ∀ (r : RegionState) (i : Instance),
    i ∈ allInstances r → i.instanceId ∉ ids → i ∈ allInstances (applyStops r ids) := by
  induction ids with
  | nil => intro r i h _; exact h
  | cons j t ih =>
    intro r i h hnm
    have hij : i.instanceId ≠ j := fun hh => hnm (by rw [hh]; exact List.mem_cons_self _ _)
    have h1 : i ∈ allInstances (stop_instances r j) := by
      rw [allInstances_stop_instances]
      have : stopEntry j i = i := by
        unfold stopEntry; rw [beq_eq_false_iff_ne.mpr hij]; rfl
      rw [show i = stopEntry j i from this.symm]
      exact List.mem_map_of_mem _ h
    exact ih (stop_instances r j) i h1 (fun hh => hnm (List.mem_cons_of_mem _ hh))

lemma mem_applyScales (ps : List (String × Nat)) : ∀ (r : RegionState) (a' : ASG),
    a' ∈ (applyScales r ps).asgs →
    ∃ a, a ∈ r.asgs ∧ a'.name = a.name ∧ a'.tags = a.tags ∧
      ((a' = a ∧ a.name ∉ ps.map Prod.fst) ∨
       (a'.minSize = 0 ∧ a'.desiredCapacity = 0 ∧ (a'.name, a'.maxSize) ∈ ps)) := by
  induction ps with
  | nil =>
    intro r a' h
    exact ⟨a', h, rfl, rfl, Or.inl ⟨rfl, List.not_mem_nil _⟩⟩
  | cons p t ih =>
    intro r a' h
    have h' : a' ∈ (applyScales (update_auto_scaling_group r p.1 0 p.2 0) t).asgs := h
    rcases ih (update_auto_scaling_group r p.1 0 p.2 0) a' h' with ⟨a1, ha1, hnm, htg, hdisj⟩
    have ha1' : a1 ∈ r.asgs.map (scaleEntry p.1 0 p.2 0) := ha1
    rcases List.mem_map.mp ha1' with ⟨a, ha, rfl⟩
    refine ⟨a, ha, hnm.trans (scaleEntry_name p.1 0 p.2 0 a),
      htg.trans (scaleEntry_tags p.1 0 p.2 0 a), ?_⟩
    cases hap : (a.name == p.1) with
    | true =>
      have hscale : scaleEntry p.1 0 p.2 0 a =
          { a with minSize := 0, maxSize := p.2, desiredCapacity := 0 } := by
        unfold scaleEntry; rw [hap]; rfl
      rcases hdisj with ⟨heq, _⟩ | ⟨hmn, hdc, hmx⟩
      · rw [hscale] at heq
        refine Or.inr ⟨by rw [heq], by rw [heq], ?_⟩
        have h1 : a'.name = a.name := hnm.trans (scaleEntry_name p.1 0 p.2 0 a)
        have h2 : a'.maxSize = p.2 := by rw [heq]
        have h3 : a.name = p.1 := by simpa using hap
        rw [h1, h2, h3]
        exact List.mem_cons_self _ _
      · exact Or.inr ⟨hmn, hdc, List.mem_cons_of_mem _ hmx⟩
    | false =>
      have hscale : scaleEntry p.1 0 p.2 0 a = a := by unfold scaleEntry; rw [hap]; rfl
      rw [hscale] at hdisj
      rcases hdisj with ⟨heq, hnmem⟩ | ⟨hmn, hdc, hmx⟩
      · refine Or.inl ⟨heq, ?_⟩
        simp only [List.map_cons, List.mem_cons]
        rintro (hh | hh)
        · exact absurd hh (by simpa using hap)
        · exact hnmem (by simpa using hh)
      · exact Or.inr ⟨hmn, hdc, List.mem_cons_of_mem _ hmx⟩

lemma mem_applyScales_untouched (ps : List (String × Nat)) : ∀ (r : RegionState) (a : ASG),
    a ∈ r.asgs → a.name ∉ ps.map Prod.fst → a ∈ (applyScales r ps).asgs := by
  induction ps with
  | nil => intro r a h _; exact h
  | cons p t ih =>
    intro r a h hnm
    have hap : a.name ≠ p.1 := by
      intro hh
      exact hnm (by rw [hh]; exact List.mem_cons_self _ _)
    have h1 : a ∈ (update_auto_scaling_group r p.1 0 p.2 0).asgs := by
      have hscale : scaleEntry p.1 0 p.2 0 a = a := by
        unfold scaleEntry; rw [beq_eq_false_iff_ne.mpr hap]; rfl
      rw [show a = scaleEntry p.1 0 p.2 0 a from hscale.symm]
      exact List.mem_map_of_mem _ h
    refine ih (update_auto_scaling_group r p.1 0 p.2 0) a h1 ?_
    intro hh
    exact hnm (List.mem_cons_of_mem _ hh)

lemma applyScales_map_name : ∀ (ps : List (String × Nat)) (r : RegionState),
    (applyScales r ps).asgs.map ASG.name = r.asgs.map ASG.name := by
  intro ps
  induction ps with
  | nil => intro r; rfl
  | cons p t ih =>
    intro r
    have h : applyScales r (p :: t) = applyScales (update_auto_scaling_group r p.1 0 p.2 0) t := rfl
    rw [h, ih]
    show (r.asgs.map (scaleEntry p.1 0 p.2 0)).map ASG.name = r.asgs.map ASG.name
    rw [List.map_map]
    exact List.map_congr_left (fun a _ => scaleEntry_name p.1 0 p.2 0 a)

lemma string_append_data (a b : String) : (a ++ b).data = a.data ++ b.data := by
  cases a; cases b; rfl

lemma instanceLabel_inj (region a b : String)
    (h : instanceLabel a region = instanceLabel b region) : a = b := by
  unfold instanceLabel at h
  have h1 := congrArg String.data h
  have hd : a.data ++ (" (".data ++ (region.data ++ ")".data)) =
      b.data ++ (" (".data ++ (region.data ++ ")".data)) := by
    simpa [string_append_data, List.append_assoc] using h1
  exact String.ext ((List.append_inj' hd rfl).1)

lemma asgLabel_inj (region a b : String)
    (h : asgLabel a region = asgLabel b region) : a = b := by
  unfold asgLabel at h
  have h1 := congrArg String.data h
  have hd : a.data ++ (" (".data ++ (region.data ++ ")".data)) =
      b.data ++ (" (".data ++ (region.data ++ ")".data)) := by
    simpa [string_append_data, List.append_assoc] using h1
  exact String.ext ((List.append_inj' hd rfl).1)

lemma mem_stopIds (r : RegionState) (iid : String) :
    iid ∈ stopIds r ↔
      ∃ i, i ∈ runningInstances r ∧ instActed r i = true ∧ i.instanceId = iid := by
  unfold stopIds
  simp only [List.mem_map, List.mem_filter]
  constructor
  · rintro ⟨i, ⟨hm, ha⟩, rfl⟩
    exact ⟨i, hm, ha, rfl⟩
  · rintro ⟨i, hm, ha, rfl⟩
    exact ⟨i, ⟨hm, ha⟩, rfl⟩

lemma mem_scalePairs (r : RegionState) (nm : String) (mx : Nat) :
    (nm, mx) ∈ scalePairs r ↔
      ∃ a, a ∈ r.asgs ∧ asgActed r a = true ∧ a.name = nm ∧ a.maxSize = mx := by
  unfold scalePairs
  simp only [List.mem_map, List.mem_filter, Prod.mk.injEq]
  constructor
  · rintro ⟨a, ⟨hm, ha⟩, h1, h2⟩
    exact ⟨a, hm, ha, h1, h2⟩
  · rintro ⟨a, hm, ha, h1, h2⟩
    exact ⟨a, ⟨hm, ha⟩, h1, h2⟩

lemma mem_scalePairs_fst (r : RegionState) (nm : String) :
    nm ∈ (scalePairs r).map Prod.fst ↔
      ∃ a, a ∈ r.asgs ∧ asgActed r a = true ∧ a.name = nm := by
  unfold scalePairs
  rw [List.map_map]
  simp only [List.mem_map, List.mem_filter, Function.comp]
  constructor
  · rintro ⟨a, ⟨hm, ha⟩, rfl⟩
    exact ⟨a, hm, ha, rfl⟩
  · rintro ⟨a, hm, ha, rfl⟩
    exact ⟨a, ⟨hm, ha⟩, rfl⟩

lemma okClients_applyStops (ids : List String) (r : RegionState) :
    okClients (applyStops r ids) = okClients r := by
  unfold okClients
  rw [applyStops_ec2ClientFails, applyStops_asgClientFails]

lemma okClients_applyScales (ps : List (String × Nat)) (r : RegionState) :
    okClients (applyScales r ps) = okClients r := by
  unfold okClients
  rw [applyScales_ec2ClientFails, applyScales_asgClientFails]

lemma stop_state_okClients (r : RegionState) (region : String) :
    okClients (stop_idle_instances r region).2 = okClients r := by
  rw [stop_idle_instances_eq]
  by_cases hd : r.describeInstancesFails = true
  · simp [hd]
  · simp only [hd, Bool.false_eq_true, if_false,
      show r.describeInstancesFails = false from Bool.eq_false_iff.mpr hd]
    simp [okClients_applyStops]

lemma scale_state_okClients (r : RegionState) (region : String) :
    okClients (scale_down_asgs r region).2 = okClients r := by
  rw [scale_down_asgs_eq]
  by_cases hd : r.describeAsgsFails = true
  · simp [hd]
  · simp only [hd, Bool.false_eq_true, if_false,
      show r.describeAsgsFails = false from Bool.eq_false_iff.mpr hd]
    simp [okClients_applyScales]

lemma process_region_state_okClients (r : RegionState) (region : String)
    (res : GovernanceResult) (st : RegionState)
    (h : process_region r region = Except.ok (res, st)) :
    okClients st = okClients r := by
  obtain ⟨h1, h2⟩ := process_region_ok_flags r region res st h
  rw [process_region_ok r region h1 h2] at h
  have hst : st = (scale_down_asgs (stop_idle_instances r region).2 region).2 := by
    have h' := (Except.ok.injEq _ _).mp h
    exact (congrArg Prod.snd h').symm
  rw [hst, scale_state_okClients, stop_state_okClients]

lemma okClients_true_flags (r : RegionState) (h : okClients r = true) :
    r.ec2ClientFails = false ∧ r.asgClientFails = false := by
  unfold okClients at h
  constructor
  · cases hf : r.ec2ClientFails with
    | false => rfl
    | true => rw [hf] at h; simp at h
  · cases hf : r.asgClientFails with
    | false => rfl
    | true => rw [hf] at h; simp at h

lemma okClients_false_flags (r : RegionState) (h : okClients r = false) :
    r.ec2ClientFails = true ∨ r.asgClientFails = true := by
  unfold okClients at h
  cases h1 : r.ec2ClientFails with
  | true => exact Or.inl rfl
  | false =>
    cases h2 : r.asgClientFails with
    | true => exact Or.inr rfl
    | false => rw [h1, h2] at h; simp at h

lemma handleRegion_of_ok (acc : AggregateResults × World) (n : String)
    (res : GovernanceResult) (st : RegionState)
    (h : process_region (acc.2.state n) n = Except.ok (res, st)) :
    handleRegion acc n =
      ({ stopped_instances := acc.1.stopped_instances ++ res.stopped_instances,
         scaled_down_asgs := acc.1.scaled_down_asgs ++ res.scaled_down_asgs,
         errors := acc.1.errors ++ res.errors,
         regions_processed := acc.1.regions_processed ++ [n] },
       ⟨fun m => if m == n then st else acc.2.state m⟩) := by
  unfold handleRegion
  rw [h]

lemma handleRegion_of_err (acc : AggregateResults × World) (n : String) (e : String)
    (h : process_region (acc.2.state n) n = Except.error e) :
    handleRegion acc n =
      ({ acc.1 with errors := acc.1.errors ++ ["Error processing region " ++ n ++ ": " ++ e] },
       acc.2) := by
  unfold handleRegion
  rw [h]

lemma driver_fold (w0 : World) :
    ∀ (L : List String) (acc : AggregateResults × World),
    (∀ n, okClients (acc.2.state n) = okClients (w0.state n)) →
    (L.foldl handleRegion acc).1.regions_processed =
        acc.1.regions_processed ++ L.filter (fun n => okClients (w0.state n)) ∧
    (∀ n, okClients ((L.foldl handleRegion acc).2.state n) = okClients (w0.state n)) ∧
    (∃ t2, (L.foldl handleRegion acc).1.errors = acc.1.errors ++ t2) ∧
    (∀ n ∈ L, okClients (w0.state n) = false →
      ∃ m, ("Error processing region " ++ n ++ ": " ++ m) ∈
        (L.foldl handleRegion acc).1.errors) := by
  intro L
  induction L with
  | nil =>
    intro acc hst
    refine ⟨by simp, hst, ⟨[], by simp⟩, by simp⟩
  | cons n t ih =>
    intro acc hst
    rw [List.foldl_cons, List.filter_cons]
    cases hok : okClients (w0.state n) with
    | true =>
      have hacc : okClients (acc.2.state n) = true := by rw [hst, hok]
      obtain ⟨h1, h2⟩ := okClients_true_flags _ hacc
      have hpr := process_region_ok (acc.2.state n) n h1 h2
      rw [handleRegion_of_ok acc n _ _ hpr]
      set res : GovernanceResult :=
        { stopped_instances := (stop_idle_instances (acc.2.state n) n).1,
          scaled_down_asgs :=
            (scale_down_asgs (stop_idle_instances (acc.2.state n) n).2 n).1,
          errors := [] } with hres
      set st : RegionState :=
        (scale_down_asgs (stop_idle_instances (acc.2.state n) n).2 n).2 with hstdef
      set acc1 : AggregateResults × World :=
        ({ stopped_instances := acc.1.stopped_instances ++ res.stopped_instances,
           scaled_down_asgs := acc.1.scaled_down_asgs ++ res.scaled_down_asgs,
           errors := acc.1.errors ++ res.errors,
           regions_processed := acc.1.regions_processed ++ [n] },
         ⟨fun m => if m == n then st else acc.2.state m⟩) with hacc1
      have hst1 : ∀ m, okClients (acc1.2.state m) = okClients (w0.state m) := by
        intro m
        show okClients (if m == n then st else acc.2.state m) = okClients (w0.state m)
        cases hmn : (m == n) with
        | true =>
          have hmn' : m = n := by simpa using hmn
          rw [if_pos rfl]
          have : okClients st = okClients (acc.2.state n) :=
            process_region_state_okClients (acc.2.state n) n res st hpr
          rw [this, hst n, hmn']
        | false =>
          rw [if_neg (by simp [hmn])]
          exact hst m
      obtain ⟨ihp, ihs, ⟨t2, iherr⟩, ihmem⟩ := ih acc1 hst1
      refine ⟨?_, ihs, ?_, ?_⟩
      · rw [ihp]
        show (acc.1.regions_processed ++ [n]) ++ _ = _
        simp
      · refine ⟨res.errors ++ t2, ?_⟩
        rw [iherr]
        show (acc.1.errors ++ res.errors) ++ t2 = _
        simp
      · intro m hm hbad
        rcases List.mem_cons.mp hm with rfl | hmt
        · rw [hok] at hbad; exact absurd hbad (by simp)
        · exact ihmem m hmt hbad
    | false =>
      have hacc : okClients (acc.2.state n) = false := by rw [hst, hok]
      obtain ⟨e, herr⟩ := process_region_err (acc.2.state n) n (okClients_false_flags _ hacc)
      rw [handleRegion_of_err acc n e herr]
      set acc1 : AggregateResults × World :=
        ({ acc.1 with errors :=
            acc.1.errors ++ ["Error processing region " ++ n ++ ": " ++ e] }, acc.2) with hacc1
      have hst1 : ∀ m, okClients (acc1.2.state m) = okClients (w0.state m) := hst
      obtain ⟨ihp, ihs, ⟨t2, iherr⟩, ihmem⟩ := ih acc1 hst1
      refine ⟨?_, ihs, ?_, ?_⟩
      · rw [ihp]
        rfl
      · refine ⟨["Error processing region " ++ n ++ ": " ++ e] ++ t2, ?_⟩
        rw [iherr]
        show (acc.1.errors ++ _) ++ t2 = _
        simp
      · intro m hm hbad
        rcases List.mem_cons.mp hm with rfl | hmt
        · refine ⟨e, ?_⟩
          rw [iherr]
          show _ ∈ (acc.1.errors ++ _) ++ t2
          simp
        · exact ihmem m hmt hbad

lemma instActed_elim (r : RegionState) (i : Instance) (h : instActed r i = true) :
    is_instance_stop_protected r i.instanceId = false ∧
    r.stopFails.contains i.instanceId = false := by
  unfold instActed at h
  simp only [Bool.and_eq_true, Bool.not_eq_true'] at h
  exact h

lemma asgActed_elim (r : RegionState) (a : ASG) (h : asgActed r a = true) :
    is_asg_protected r a.name = false ∧ 0 < a.desiredCapacity ∧
    r.updateFails.contains a.name = false := by
  unfold asgActed at h
  simp only [Bool.and_eq_true, Bool.not_eq_true', decide_eq_true_eq] at h
  exact ⟨h.1.1, h.1.2, h.2⟩

lemma runningInstances_congr (r r' : RegionState) (h : r.reservations = r'.reservations) :
    runningInstances r = runningInstances r' := by
  unfold runningInstances
  rw [h]

lemma stop_state_asgs (r : RegionState) (region : String) :
    (stop_idle_instances r region).2.asgs = r.asgs := by
  rw [stop_idle_instances_eq]
  by_cases hd : r.describeInstancesFails = true <;> simp [hd, applyStops_asgs]

lemma stop_state_stopFails (r : RegionState) (region : String) :
    (stop_idle_instances r region).2.stopFails = r.stopFails := by
  rw [stop_idle_instances_eq]
  by_cases hd : r.describeInstancesFails = true <;> simp [hd, applyStops_stopFails]

lemma stop_state_updateFails (r : RegionState) (region : String) :
    (stop_idle_instances r region).2.updateFails = r.updateFails := by
  rw [stop_idle_instances_eq]
  by_cases hd : r.describeInstancesFails = true <;> simp [hd, applyStops_updateFails]

lemma stop_state_describeInstancesFails (r : RegionState) (region : String) :
    (stop_idle_instances r region).2.describeInstancesFails = r.describeInstancesFails := by
  rw [stop_idle_instances_eq]
  by_cases hd : r.describeInstancesFails = true <;>
    simp [hd, applyStops_describeInstancesFails]

lemma stop_state_describeAsgsFails (r : RegionState) (region : String) :
    (stop_idle_instances r region).2.describeAsgsFails = r.describeAsgsFails := by
  rw [stop_idle_instances_eq]
  by_cases hd : r.describeInstancesFails = true <;> simp [hd, applyStops_describeAsgsFails]

lemma stop_state_prot_inst (r : RegionState) (region : String) (iid : String) :
    is_instance_stop_protected (stop_idle_instances r region).2 iid =
      is_instance_stop_protected r iid := by
  rw [stop_idle_instances_eq]
  by_cases hd : r.describeInstancesFails = true <;> simp [hd, prot_applyStops]

lemma stop_state_prot_asg (r : RegionState) (region : String) (nm : String) :
    is_asg_protected (stop_idle_instances r region).2 nm = is_asg_protected r nm := by
  rw [stop_idle_instances_eq]
  by_cases hd : r.describeInstancesFails = true <;> simp [hd, prot_asg_applyStops]

lemma stop_state_asgActed (r : RegionState) (region : String) (a : ASG) :
    asgActed (stop_idle_instances r region).2 a = asgActed r a := by
  unfold asgActed
  rw [stop_state_prot_asg, stop_state_updateFails]

lemma scale_state_reservations (r : RegionState) (region : String) :
    (scale_down_asgs r region).2.reservations = r.reservations := by
  rw [scale_down_asgs_eq]
  by_cases hd : r.describeAsgsFails = true <;> simp [hd, applyScales_reservations]

lemma scale_state_stopFails (r : RegionState) (region : String) :
    (scale_down_asgs r region).2.stopFails = r.stopFails := by
  rw [scale_down_asgs_eq]
  by_cases hd : r.describeAsgsFails = true <;> simp [hd, applyScales_stopFails]

lemma scale_state_describeInstancesFails (r : RegionState) (region : String) :
    (scale_down_asgs r region).2.describeInstancesFails = r.describeInstancesFails := by
  rw [scale_down_asgs_eq]
  by_cases hd : r.describeAsgsFails = true <;>
    simp [hd, applyScales_describeInstancesFails]

lemma scale_state_describeAsgsFails (r : RegionState) (region : String) :
    (scale_down_asgs r region).2.describeAsgsFails = r.describeAsgsFails := by
  rw [scale_down_asgs_eq]
  by_cases hd : r.describeAsgsFails = true <;> simp [hd, applyScales_describeAsgsFails]

lemma scale_state_updateFails (r : RegionState) (region : String) :
    (scale_down_asgs r region).2.updateFails = r.updateFails := by
  rw [scale_down_asgs_eq]
  by_cases hd : r.describeAsgsFails = true <;> simp [hd, applyScales_updateFails]

lemma scale_state_prot_inst (r : RegionState) (region : String) (iid : String) :
    is_instance_stop_protected (scale_down_asgs r region).2 iid =
      is_instance_stop_protected r iid := by
  rw [scale_down_asgs_eq]
  by_cases hd : r.describeAsgsFails = true <;> simp [hd, prot_inst_applyScales]

lemma scale_state_prot_asg (r : RegionState) (region : String) (nm : String) :
    is_asg_protected (scale_down_asgs r region).2 nm = is_asg_protected r nm := by
  rw [scale_down_asgs_eq]
  by_cases hd : r.describeAsgsFails = true <;> simp [hd, prot_asg_applyScales]

lemma scale_state_instActed (r : RegionState) (region : String) (i : Instance) :
    instActed (scale_down_asgs r region).2 i = instActed r i := by
  unfold instActed
  rw [scale_state_prot_inst, scale_state_stopFails]

lemma stop_state_instActed (r : RegionState) (region : String) (i : Instance) :
    instActed (stop_idle_instances r region).2 i = instActed r i := by
  unfold instActed
  rw [stop_state_prot_inst, stop_state_stopFails]

lemma scale_state_asgActed (r : RegionState) (region : String) (a : ASG) :
    asgActed (scale_down_asgs r region).2 a = asgActed r a := by
  unfold asgActed
  rw [scale_state_prot_asg, scale_state_updateFails]

lemma stop_out_eq (r : RegionState) (region : String) :
    (stop_idle_instances r region).1 =
      if r.describeInstancesFails then []
      else ((runningInstances r).filter (instActed r)).map
        (fun i => instanceLabel i.instanceId region) := by
  rw [stop_idle_instances_eq]
  by_cases hd : r.describeInstancesFails = true <;> simp [hd]

lemma scale_out_eq (r : RegionState) (region : String) :
    (scale_down_asgs r region).1 =
      if r.describeAsgsFails then []
      else (r.asgs.filter (asgActed r)).map (fun a => asgLabel a.name region) := by
  rw [scale_down_asgs_eq]
  by_cases hd : r.describeAsgsFails = true <;> simp [hd]

/-- Claim C1, as stated, is false on the code: in `exC1` the stop of the
running unprotected instance `i-1` fails (it is enumerated running,
unprotected, and its stop call raises, so it is absent from the stopped
list), yet `process_region` returns with an EMPTY `errors` list — the
failure string is printed, never appended to the region's error list. -/
theorem C1_counterexample :
    is_instance_stop_protected exC1 "i-1" = false ∧
    exC1.stopFails.contains "i-1" = true ∧
    (∃ i, i ∈ runningInstances exC1 ∧ i.instanceId = "i-1") ∧
    process_region exC1 "us-east-1" =
      Except.ok ({ stopped_instances := [], scaled_down_asgs := [], errors := [] }, exC1) := by
  refine ⟨by decide, by decide,
    ⟨⟨"i-1", "running", "t3.micro", false, []⟩, by decide, by decide⟩, rfl⟩

/-- Claim C1 (amended): every failure inside a sweep — per-instance stop
failure, per-group update failure, enumeration/pagination failure — is
converted to a string that is only logged; it is NOT appended to the
region's error list (the returned `GovernanceResult.errors` is always
empty), and processing of sibling resources continues: the results are
exactly the labels of the unprotected resources whose mutating call
succeeds, regardless of which other calls failed. -/
theorem C1_amended_failures_only_logged (r : RegionState) (region : String)
    (h1 : r.ec2ClientFails = false) (h2 : r.asgClientFails = false) :
    ∃ res st, process_region r region = Except.ok (res, st) ∧
      res.errors = [] ∧
      res.stopped_instances =
        (if r.describeInstancesFails then []
         else ((runningInstances r).filter (instActed r)).map
           (fun i => instanceLabel i.instanceId region)) ∧
      res.scaled_down_asgs =
        (if r.describeAsgsFails then []
         else (r.asgs.filter (asgActed r)).map (fun a => asgLabel a.name region)) := by
  refine ⟨_, _, process_region_ok r region h1 h2, rfl, stop_out_eq r region, ?_⟩
  rw [scale_out_eq, stop_state_describeAsgsFails, stop_state_asgs]
  by_cases hd : r.describeAsgsFails = true
  · simp [hd]
  · have hfc : r.asgs.filter (asgActed (stop_idle_instances r region).2) =
        r.asgs.filter (asgActed r) :=
      List.filter_congr (fun a _ => stop_state_asgActed r region a)
    rw [hfc]

/-- Witness for the amended C1 at the sample region: the stop of `i-4`
fails and the stop of `i-1` succeeds, so `i-1` is still swept, and no
error is recorded. -/
theorem C1_amended_witness :
    ∃ res st, process_region sampleRegion "us-east-1" = Except.ok (res, st) ∧
      res.errors = [] ∧
      res.stopped_instances =
        (if sampleRegion.describeInstancesFails then []
         else ((runningInstances sampleRegion).filter (instActed sampleRegion)).map
           (fun i => instanceLabel i.instanceId "us-east-1")) ∧
      res.scaled_down_asgs =
        (if sampleRegion.describeAsgsFails then []
         else (sampleRegion.asgs.filter (asgActed sampleRegion)).map
           (fun a => asgLabel a.name "us-east-1")) :=
  C1_amended_failures_only_logged sampleRegion "us-east-1" rfl rfl

/-- Claim C2, as stated, is false on the code: the two `boto3.client`
calls sit BEFORE the `try` block of `process_region`, so a raising ec2
client constructor propagates the exception to the caller instead of
returning a `GovernanceResult`. -/
theorem C2_counterexample :
    process_region exC2 "us-east-1" =
      Except.error ("could not create ec2 client in us-east-1") := rfl

/-- Claim C2 (amended): whenever both client constructors succeed,
`process_region` returns a `GovernanceResult` and never propagates an
exception, whatever the sweepers' calls do (both sweepers catch all of
their own failures); only a client-construction failure propagates. -/
theorem C2_amended_returns_unless_client_fails (r : RegionState) (region : String)
    (h1 : r.ec2ClientFails = false) (h2 : r.asgClientFails = false) :
    ∃ res st, process_region r region = Except.ok (res, st) :=
  ⟨_, _, process_region_ok r region h1 h2⟩

/-- Witness for the amended C2: the sample region (which has a failing
stop call inside the sweep) still yields a result. -/
theorem C2_amended_witness :
    ∃ res st, process_region sampleRegion "us-east-1" = Except.ok (res, st) :=
  C2_amended_returns_unless_client_fails sampleRegion "us-east-1" rfl rfl

/-- Claim C5: when its provider queries succeed, an instance is judged
protected iff `disableApiStop` is reported true or a `ResourceGovernance`
tag whose value equals `keep` case-insensitively is attached; a group
(with provider-unique names) is judged protected iff such a tag is
attached — no API-level attribute enters the group decision. -/
theorem C5_protection_policy (r : RegionState) :
    (∀ iid inst, findInstance r iid = some inst →
      r.attrCheckFails.contains iid = false →
      r.instanceTagsFails.contains iid = false →
      (is_instance_stop_protected r iid = true ↔
        (inst.disableApiStop = true ∨
         ∃ t ∈ inst.tags, t.key = "ResourceGovernance" ∧ pyLower t.value = "keep"))) ∧
    (∀ a, a ∈ r.asgs → (r.asgs.map ASG.name).Nodup →
      r.asgTagsFails.contains a.name = false →
      (is_asg_protected r a.name = true ↔
        ∃ t ∈ a.tags, t.key = "ResourceGovernance" ∧ pyLower t.value = "keep")) := by
  constructor
  · intro iid inst hfind hattr htags
    unfold is_instance_stop_protected
    rw [hattr, hfind, htags]
    cases hd : inst.disableApiStop with
    | true => simp [hd]
    | false =>
      simp only [hd, Bool.false_eq_true, if_false, false_or]
      constructor
      · intro h
        by_cases hany : (inst.tags.filter (fun t => t.key == "ResourceGovernance")).any
            (fun t => pyLower t.value == "keep") = true
        · rcases List.any_eq_true.mp hany with ⟨t, htmem, htval⟩
          rcases List.mem_filter.mp htmem with ⟨htm, htk⟩
          exact ⟨t, htm, by simpa using htk, by simpa using htval⟩
        · rw [if_neg (by simpa using hany)] at h
          simp at h
      · rintro ⟨t, htm, htk, htval⟩
        have hany : (inst.tags.filter (fun t => t.key == "ResourceGovernance")).any
            (fun t => pyLower t.value == "keep") = true :=
          List.any_eq_true.mpr ⟨t, List.mem_filter.mpr ⟨htm, by simpa using htk⟩,
            by simpa using htval⟩
        rw [if_pos (by simpa using hany)]
  · intro a ha hnodup htags
    unfold is_asg_protected
    rw [htags]
    have hmem : ∀ t' : Tag,
        t' ∈ ((r.asgs.filter (fun b => b.name == a.name)).map ASG.tags).flatten ↔
          t' ∈ a.tags := by
      intro t'
      simp only [List.mem_flatten, List.mem_map, List.mem_filter, beq_iff_eq]
      constructor
      · rintro ⟨l, ⟨b, ⟨hb, hbn⟩, rfl⟩, ht⟩
        have hba : b = a := List.inj_on_of_nodup_map hnodup hb ha hbn
        rwa [hba] at ht
      · intro ht
        exact ⟨a.tags, ⟨a, ⟨ha, rfl⟩, rfl⟩, ht⟩
    constructor
    · intro h
      simp at h
      obtain ⟨b, ⟨hb, hbn⟩, t, ⟨htm, htk⟩, htval⟩ := h
      have hba : b = a := List.inj_on_of_nodup_map hnodup hb ha hbn
      exact ⟨t, hba ▸ htm, htk, htval⟩
    · rintro ⟨t, htm, htk, htval⟩
      simp
      exact ⟨a, ⟨ha, rfl⟩, t, ⟨htm, htk⟩, htval⟩

/-- Witness for C5 at the sample region: instance `i-2` carries
`ResourceGovernance=KEEP` and is judged protected; group `g-3` carries
`ResourceGovernance=keep` and is judged protected. -/
theorem C5_witness :
    is_instance_stop_protected sampleRegion "i-2" = true ∧
    is_asg_protected sampleRegion "g-3" = true := by
  constructor
  · exact ((C5_protection_policy sampleRegion).1 "i-2"
      ⟨"i-2", "running", "m5.large", false, [⟨"ResourceGovernance", "KEEP"⟩]⟩
      (by decide) rfl rfl).mpr
      (Or.inr ⟨⟨"ResourceGovernance", "KEEP"⟩, by decide, rfl, by decide⟩)
  · exact ((C5_protection_policy sampleRegion).2 ⟨"g-3", 2, 1, 7, [⟨"ResourceGovernance", "keep"⟩]⟩
      (by decide) (by decide) rfl).mpr
      ⟨⟨"ResourceGovernance", "keep"⟩, by decide, rfl, by decide⟩

/-- Claim C4: a group that is successfully scaled down (unprotected,
positive desired capacity, its update call succeeds) ends with
`MinSize = 0`, `DesiredCapacity = 0` and its pre-call `MaxSize` unchanged
(the update passes the snapshot `MaxSize` through), and its label appears
in the sweep's result. Group names are provider-unique (`Nodup`). -/
theorem C4_maxsize_preserved (r : RegionState) (region : String) (a : ASG)
    (hd : r.describeAsgsFails = false)
    (hnodup : (r.asgs.map ASG.name).Nodup)
    (ha : a ∈ r.asgs)
    (hprot : is_asg_protected r a.name = false)
    (hcap : 0 < a.desiredCapacity)
    (hupd : r.updateFails.contains a.name = false) :
    asgLabel a.name region ∈ (scale_down_asgs r region).1 ∧
    (∃ a', a' ∈ (scale_down_asgs r region).2.asgs ∧ a'.name = a.name) ∧
    (∀ a', a' ∈ (scale_down_asgs r region).2.asgs → a'.name = a.name →
      a'.minSize = 0 ∧ a'.desiredCapacity = 0 ∧ a'.maxSize = a.maxSize) := by
  have hact : asgActed r a = true := by
    unfold asgActed
    rw [hprot, hupd, decide_eq_true hcap]
    rfl
  have hfil : a ∈ r.asgs.filter (asgActed r) := List.mem_filter.mpr ⟨ha, hact⟩
  have hnamemem : a.name ∈ (scalePairs r).map Prod.fst :=
    (mem_scalePairs_fst r a.name).mpr ⟨a, ha, hact, rfl⟩
  refine ⟨?_, ?_, ?_⟩
  · rw [scale_out_eq, hd]
    simp only [Bool.false_eq_true, if_false]
    exact List.mem_map_of_mem _ hfil
  · rw [scale_down_asgs_eq, hd]
    simp only [Bool.false_eq_true, if_false]
    have hn : a.name ∈ (applyScales r (scalePairs r)).asgs.map ASG.name := by
      rw [applyScales_map_name]
      exact List.mem_map_of_mem _ ha
    rcases List.mem_map.mp hn with ⟨a', ha', hname⟩
    exact ⟨a', ha', hname⟩
  · intro a' ha' hnm'
    rw [scale_down_asgs_eq, hd] at ha'
    simp only [Bool.false_eq_true, if_false] at ha'
    rcases mem_applyScales (scalePairs r) r a' ha' with ⟨e, he, hename, _, hdisj⟩
    have hea : e = a := by
      refine List.inj_on_of_nodup_map hnodup he ha ?_
      rw [← hename, hnm']
    rcases hdisj with ⟨_, hnmem⟩ | ⟨hmn, hdc, hmx⟩
    · rw [hea] at hnmem
      exact absurd hnamemem hnmem
    · refine ⟨hmn, hdc, ?_⟩
      rw [hnm'] at hmx
      rcases (mem_scalePairs r a.name a'.maxSize).mp hmx with ⟨b, hb, _, hbn, hbmx⟩
      have hba : b = a := List.inj_on_of_nodup_map hnodup hb ha hbn
      rw [← hbmx, hba]

/-- Witness for C4: group `g-1` of the sample region (desired 3, max 5,
untagged) is scaled down; afterwards every `g-1` entry has min 0,
desired 0 and max still 5. -/
theorem C4_witness :
    asgLabel "g-1" "us-east-1" ∈ (scale_down_asgs sampleRegion "us-east-1").1 ∧
    (∃ a', a' ∈ (scale_down_asgs sampleRegion "us-east-1").2.asgs ∧ a'.name = "g-1") ∧
    (∀ a', a' ∈ (scale_down_asgs sampleRegion "us-east-1").2.asgs → a'.name = "g-1" →
      a'.minSize = 0 ∧ a'.desiredCapacity = 0 ∧ a'.maxSize = 5) :=
  C4_maxsize_preserved sampleRegion "us-east-1" ⟨"g-1", 3, 1, 5, []⟩
    rfl (by decide) (by decide) (by decide) (by decide) rfl

/-- Claim C7: a group whose snapshot `DesiredCapacity` is zero receives no
update call regardless of protection — its label is absent from the
sweep's result and its record is untouched in the post-sweep state — and
no error entry is produced (the sweep never records errors; see C1). -/
theorem C7_zero_capacity_skipped (r : RegionState) (region : String) (a : ASG)
    (hnodup : (r.asgs.map ASG.name).Nodup)
    (ha : a ∈ r.asgs)
    (hcap : a.desiredCapacity = 0) :
    asgLabel a.name region ∉ (scale_down_asgs r region).1 ∧
    a ∈ (scale_down_asgs r region).2.asgs := by
  have hact : asgActed r a = false := by simp [asgActed, hcap]
  have hnotname : a.name ∉ (scalePairs r).map Prod.fst := by
    intro hmem
    rcases (mem_scalePairs_fst r a.name).mp hmem with ⟨b, hb, hbact, hbn⟩
    have hba : b = a := List.inj_on_of_nodup_map hnodup hb ha hbn
    rw [hba, hact] at hbact
    exact Bool.false_ne_true hbact
  by_cases hd : r.describeAsgsFails = true
  · rw [scale_down_asgs_eq]
    simp only [hd, if_true]
    exact ⟨List.not_mem_nil _, ha⟩
  · have hd' : r.describeAsgsFails = false := Bool.eq_false_iff.mpr hd
    constructor
    · rw [scale_out_eq, hd']
      simp only [Bool.false_eq_true, if_false]
      intro hmem
      rcases List.mem_map.mp hmem with ⟨b, hbf, hlab⟩
      rcases List.mem_filter.mp hbf with ⟨hb, hbact⟩
      have hbn : b.name = a.name := asgLabel_inj region b.name a.name hlab
      have hba : b = a := List.inj_on_of_nodup_map hnodup hb ha hbn
      rw [hba, hact] at hbact
      exact Bool.false_ne_true hbact
    · rw [scale_down_asgs_eq, hd']
      simp only [Bool.false_eq_true, if_false]
      exact mem_applyScales_untouched (scalePairs r) r a ha hnotname

/-- Witness for C7: group `g-2` of the sample region (desired 0) is not
scaled and is untouched. -/
theorem C7_witness :
    asgLabel "g-2" "us-east-1" ∉ (scale_down_asgs sampleRegion "us-east-1").1 ∧
    (⟨"g-2", 0, 0, 4, []⟩ : ASG) ∈ (scale_down_asgs sampleRegion "us-east-1").2.asgs :=
  C7_zero_capacity_skipped sampleRegion "us-east-1" ⟨"g-2", 0, 0, 4, []⟩
    (by decide) (by decide) rfl

/-- Claim C8: the instance sweeper issues a stop only for enumerated
`running` instances whose protection resolves false.  First conjunct: a
protected id never appears in the stopped list.  Second conjunct: every
instance record of the post-sweep state is either untouched, or the
changed record belongs to an enumerated `running` unprotected instance
and the only change is its state becoming `stopped` — instances in any
other state never receive a stop call. -/
theorem C8_stop_only_running_unprotected (r : RegionState) (region : String) :
    (∀ iid, is_instance_stop_protected r iid = true →
      instanceLabel iid region ∉ (stop_idle_instances r region).1) ∧
    (∀ i', i' ∈ allInstances (stop_idle_instances r region).2 →
      ∃ i, i ∈ allInstances r ∧ i'.instanceId = i.instanceId ∧
        (i' = i ∨ (i.state = "running" ∧ is_instance_stop_protected r i.instanceId = false ∧
                   i'.state = "stopped"))) := by
  constructor
  · intro iid hp
    by_cases hd : r.describeInstancesFails = true
    · rw [stop_out_eq]
      simp [hd]
    · rw [stop_out_eq, Bool.eq_false_iff.mpr hd]
      simp only [Bool.false_eq_true, if_false]
      intro hmem
      rcases List.mem_map.mp hmem with ⟨b, hbf, hlab⟩
      rcases List.mem_filter.mp hbf with ⟨_, hbact⟩
      have hbn : b.instanceId = iid := instanceLabel_inj region b.instanceId iid hlab
      have hprot := (instActed_elim r b hbact).1
      rw [hbn, hp] at hprot
      exact absurd hprot (by simp)
  · intro i' ha'
    rw [stop_idle_instances_eq] at ha'
    by_cases hd : r.describeInstancesFails = true
    · rw [if_pos (by simp [hd])] at ha'
      exact ⟨i', ha', rfl, Or.inl rfl⟩
    · rw [if_neg (by simp [Bool.eq_false_iff.mpr hd])] at ha'
      rcases mem_applyStops (stopIds r) r i' ha' with ⟨i, hi, hid, _, _, _, hdisj⟩
      rcases hdisj with ⟨heq, _⟩ | ⟨hst, hmemids⟩
      · exact ⟨i, hi, hid, Or.inl heq⟩
      · rcases (mem_stopIds r i.instanceId).mp hmemids with ⟨b, hbrun, hbact, hbid⟩
        rcases (mem_runningInstances r b).mp hbrun with ⟨hball, hbstate⟩
        exact ⟨b, hball, by rw [hid, hbid], Or.inr ⟨hbstate, (instActed_elim r b hbact).1, hst⟩⟩

/-- Witness for C8 at the sample region: the protected instance id `i-2`
never appears in the stopped list, and the post-state record of the
non-running instance `i-3` is untouched. -/
theorem C8_witness :
    instanceLabel "i-2" "us-east-1" ∉ (stop_idle_instances sampleRegion "us-east-1").1 ∧
    (∃ i, i ∈ allInstances sampleRegion ∧
      (⟨"i-3", "stopped", "t2.nano", false, []⟩ : Instance).instanceId = i.instanceId ∧
      ((⟨"i-3", "stopped", "t2.nano", false, []⟩ : Instance) = i ∨
       (i.state = "running" ∧ is_instance_stop_protected sampleRegion i.instanceId = false ∧
        (⟨"i-3", "stopped", "t2.nano", false, []⟩ : Instance).state = "stopped"))) := by
  constructor
  · exact (C8_stop_only_running_unprotected sampleRegion "us-east-1").1 "i-2" (by decide)
  · exact (C8_stop_only_running_unprotected sampleRegion "us-east-1").2
      ⟨"i-3", "stopped", "t2.nano", false, []⟩ (by decide)

/-- Claim C3: if a protection check raises — the instance attribute call,
the instance tag call (reached when the attribute reports false), or the
group tag call — the resource is treated as protected: the check returns
true, no stop or update call touches that resource (its label is absent
from the results and its records are untouched in the post-sweep state),
and no error entry is recorded (the returned `errors` list is empty). -/
theorem C3_failed_check_means_protected (r : RegionState) (region : String) :
    (∀ iid, r.attrCheckFails.contains iid = true →
      is_instance_stop_protected r iid = true) ∧
    (∀ iid inst, findInstance r iid = some inst → inst.disableApiStop = false →
      r.instanceTagsFails.contains iid = true →
      is_instance_stop_protected r iid = true) ∧
    (∀ nm, r.asgTagsFails.contains nm = true → is_asg_protected r nm = true) ∧
    (∀ iid, is_instance_stop_protected r iid = true →
      instanceLabel iid region ∉ (stop_idle_instances r region).1 ∧
      (∀ i, i ∈ allInstances r → i.instanceId = iid →
        i ∈ allInstances (stop_idle_instances r region).2)) ∧
    (∀ nm, is_asg_protected r nm = true →
      asgLabel nm region ∉ (scale_down_asgs r region).1 ∧
      (∀ a, a ∈ r.asgs → a.name = nm → a ∈ (scale_down_asgs r region).2.asgs)) ∧
    (∀ res st, process_region r region = Except.ok (res, st) → res.errors = []) := by
  refine ⟨?_, ?_, ?_, ?_, ?_, ?_⟩
  · intro iid h
    unfold is_instance_stop_protected
    rw [h]
    rfl
  · intro iid inst hfind hda htf
    unfold is_instance_stop_protected
    by_cases hattr : r.attrCheckFails.contains iid = true
    · rw [hattr]; rfl
    · rw [Bool.eq_false_iff.mpr hattr, hfind]
      simp only [Bool.false_eq_true, if_false]
      rw [hda, htf]
      rfl
  · intro nm h
    unfold is_asg_protected
    rw [h]
    rfl
  · intro iid hp
    have hnotids : iid ∉ stopIds r := by
      intro hmem
      rcases (mem_stopIds r iid).mp hmem with ⟨b, _, hbact, hbid⟩
      have hprot := (instActed_elim r b hbact).1
      rw [hbid, hp] at hprot
      exact absurd hprot (by simp)
    constructor
    · by_cases hd : r.describeInstancesFails = true
      · rw [stop_out_eq]; simp [hd]
      · rw [stop_out_eq, Bool.eq_false_iff.mpr hd]
        simp only [Bool.false_eq_true, if_false]
        intro hmem
        rcases List.mem_map.mp hmem with ⟨b, hbf, hlab⟩
        rcases List.mem_filter.mp hbf with ⟨_, hbact⟩
        have hbn : b.instanceId = iid := instanceLabel_inj region b.instanceId iid hlab
        have hprot := (instActed_elim r b hbact).1
        rw [hbn, hp] at hprot
        exact absurd hprot (by simp)
    · intro i hi hiid
      rw [stop_idle_instances_eq]
      by_cases hd : r.describeInstancesFails = true
      · rw [if_pos (by simp [hd])]
        exact hi
      · rw [if_neg (by simp [Bool.eq_false_iff.mpr hd])]
        exact mem_applyStops_untouched (stopIds r) r i hi (by rw [hiid]; exact hnotids)
  · intro nm hp
    have hnotname : nm ∉ (scalePairs r).map Prod.fst := by
      intro hmem
      rcases (mem_scalePairs_fst r nm).mp hmem with ⟨b, _, hbact, hbn⟩
      have hprot := (asgActed_elim r b hbact).1
      rw [hbn, hp] at hprot
      exact absurd hprot (by simp)
    constructor
    · by_cases hd : r.describeAsgsFails = true
      · rw [scale_out_eq]; simp [hd]
      · rw [scale_out_eq, Bool.eq_false_iff.mpr hd]
        simp only [Bool.false_eq_true, if_false]
        intro hmem
        rcases List.mem_map.mp hmem with ⟨b, hbf, hlab⟩
        rcases List.mem_filter.mp hbf with ⟨_, hbact⟩
        have hbn : b.name = nm := asgLabel_inj region b.name nm hlab
        have hprot := (asgActed_elim r b hbact).1
        rw [hbn, hp] at hprot
        exact absurd hprot (by simp)
    · intro a ha hnm
      rw [scale_down_asgs_eq]
      by_cases hd : r.describeAsgsFails = true
      · rw [if_pos (by simp [hd])]
        exact ha
      · rw [if_neg (by simp [Bool.eq_false_iff.mpr hd])]
        exact mem_applyScales_untouched (scalePairs r) r a ha (by rw [hnm]; exact hnotname)
  · intro res st h
    obtain ⟨h1, h2⟩ := process_region_ok_flags r region res st h
    rw [process_region_ok r region h1 h2] at h
    have h' := (Except.ok.injEq _ _).mp h
    have hres := congrArg Prod.fst h'
    simp only [] at hres
    rw [← hres]

/-- Witness for C3 at `failRegion`: the attribute call for `i-9` and the
group tag call for `g-9` raise, both resources are judged protected,
neither is swept, and no error is recorded. -/
theorem C3_witness :
    is_instance_stop_protected failRegion "i-9" = true ∧
    is_asg_protected failRegion "g-9" = true ∧
    instanceLabel "i-9" "us-east-1" ∉ (stop_idle_instances failRegion "us-east-1").1 ∧
    asgLabel "g-9" "us-east-1" ∉ (scale_down_asgs failRegion "us-east-1").1 := by
  have h := C3_failed_check_means_protected failRegion "us-east-1"
  have hp1 : is_instance_stop_protected failRegion "i-9" = true := h.1 "i-9" (by decide)
  have hp2 : is_asg_protected failRegion "g-9" = true := h.2.2.1 "g-9" (by decide)
  exact ⟨hp1, hp2, (h.2.2.2.1 "i-9" hp1).1, (h.2.2.2.2.1 "g-9" hp2).1⟩

/-- Claim C9: running the sweep twice with no external change between the
runs (the first run's stops and scale-downs having taken effect) yields an
empty stopped list and an empty scaled list on the second run: stopped
instances fail the running-state filter, and scaled-down groups fail the
positive-capacity check. -/
theorem C9_second_run_empty (r : RegionState) (region : String)
    (h1 : r.ec2ClientFails = false) (h2 : r.asgClientFails = false) :
    ∃ res1 r1 res2 r2,
      process_region r region = Except.ok (res1, r1) ∧
      process_region r1 region = Except.ok (res2, r2) ∧
      res2.stopped_instances = [] ∧ res2.scaled_down_asgs = [] := by
  set rS := (stop_idle_instances r region).2 with hrS
  set r1 := (scale_down_asgs rS region).2 with hr1
  have hok1 := process_region_ok r region h1 h2
  have hocr : okClients r = true := by unfold okClients; rw [h1, h2]; rfl
  have hflags : okClients r1 = okClients r := by
    rw [hr1, hrS, scale_state_okClients, stop_state_okClients]
  obtain ⟨h1', h2'⟩ := okClients_true_flags r1 (by rw [hflags, hocr])
  have hok2 := process_region_ok r1 region h1' h2'
  have hinstActed1 : ∀ i, instActed r1 i = instActed r i := by
    intro i
    rw [hr1, scale_state_instActed, hrS, stop_state_instActed]
  refine ⟨_, _, _, _, hok1, hok2, ?_, ?_⟩
  · show (stop_idle_instances r1 region).1 = []
    rw [stop_out_eq]
    have hdif : r1.describeInstancesFails = r.describeInstancesFails := by
      rw [hr1, hrS, scale_state_describeInstancesFails, stop_state_describeInstancesFails]
    cases hd : r.describeInstancesFails with
    | true => simp [hdif, hd]
    | false =>
      rw [hdif, hd]
      simp only [Bool.false_eq_true, if_false]
      have hrun1 : runningInstances r1 = runningInstances rS :=
        runningInstances_congr r1 rS (by rw [hr1, scale_state_reservations])
      have hrSeq : rS = applyStops r (stopIds r) := by
        rw [hrS, stop_idle_instances_eq, hd]
        simp
      have hempty : (runningInstances r1).filter (instActed r1) = [] := by
        rw [List.filter_eq_nil_iff]
        intro i' hi' hact
        rw [hrun1, hrSeq] at hi'
        rcases (mem_runningInstances _ i').mp hi' with ⟨hall, hst⟩
        rcases mem_applyStops (stopIds r) r i' hall with ⟨i, hi, hid, _, _, _, hdisj⟩
        have hact' : instActed r i' = true := by rw [← hinstActed1]; exact hact
        rcases hdisj with ⟨heq, hnids⟩ | ⟨hstopped, _⟩
        · have hallr : i' ∈ allInstances r := by rw [heq]; exact hi
          have hrunr : i' ∈ runningInstances r := (mem_runningInstances r i').mpr ⟨hallr, hst⟩
          have hmem : i'.instanceId ∈ stopIds r :=
            (mem_stopIds r i'.instanceId).mpr ⟨i', hrunr, hact', rfl⟩
          rw [hid] at hmem
          exact hnids hmem
        · rw [hstopped] at hst
          exact absurd hst (by decide)
      rw [hempty]
      rfl
  · show (scale_down_asgs (stop_idle_instances r1 region).2 region).1 = []
    set r1S := (stop_idle_instances r1 region).2 with hr1S
    rw [scale_out_eq]
    have hdafS : r1S.describeAsgsFails = r1.describeAsgsFails := by
      rw [hr1S, stop_state_describeAsgsFails]
    have hasgsS : r1S.asgs = r1.asgs := by rw [hr1S, stop_state_asgs]
    have hactedS : ∀ a, asgActed r1S a = asgActed r1 a := by
      intro a
      rw [hr1S, stop_state_asgActed]
    have hasgActed1 : ∀ a, asgActed r1 a = asgActed rS a := by
      intro a
      rw [hr1, scale_state_asgActed]
    cases hdA : rS.describeAsgsFails with
    | true =>
      have hr1rS : r1 = rS := by
        rw [hr1, scale_down_asgs_eq, hdA]
        simp
      have hd1 : r1S.describeAsgsFails = true := by
        rw [hdafS, hr1rS]
        exact hdA
      simp [hd1]
    | false =>
      have hr1eq : r1 = applyScales rS (scalePairs rS) := by
        rw [hr1, scale_down_asgs_eq, hdA]
        simp
      have hdA1 : r1S.describeAsgsFails = false := by
        rw [hdafS, hr1, scale_state_describeAsgsFails]
        exact hdA
      rw [hdA1]
      simp only [Bool.false_eq_true, if_false]
      have hfc : r1S.asgs.filter (asgActed r1S) = r1.asgs.filter (asgActed r1) := by
        rw [hasgsS]
        exact List.filter_congr (fun a _ => hactedS a)
      have hempty : r1.asgs.filter (asgActed r1) = [] := by
        rw [List.filter_eq_nil_iff]
        intro a' ha' hact
        have hact' : asgActed rS a' = true := by rw [← hasgActed1]; exact hact
        obtain ⟨hprot', hdc', hupd'⟩ := asgActed_elim rS a' hact'
        rw [hr1eq] at ha'
        rcases mem_applyScales (scalePairs rS) rS a' ha' with ⟨e, he, hnm, _, hdisj⟩
        rcases hdisj with ⟨heq, hnmem⟩ | ⟨_, hdczero, _⟩
        · have hacte : asgActed rS e = true := by rw [← heq]; exact hact'
          have hmem : e.name ∈ (scalePairs rS).map Prod.fst :=
            (mem_scalePairs_fst rS e.name).mpr ⟨e, he, hacte, rfl⟩
          exact hnmem hmem
        · rw [hdczero] at hdc'
          exact absurd hdc' (by omega)
      rw [hfc, hempty]
      rfl

/-- Witness for C9 at the sample region: both runs succeed and the second
run does nothing. -/
theorem C9_witness :
    ∃ res1 r1 res2 r2,
      process_region sampleRegion "us-east-1" = Except.ok (res1, r1) ∧
      process_region r1 "us-east-1" = Except.ok (res2, r2) ∧
      res2.stopped_instances = [] ∧ res2.scaled_down_asgs = [] :=
  C9_second_run_empty sampleRegion "us-east-1" rfl rfl

/-- Claim C6: the driver catches a region-level failure, appends one error
string for it, omits that region from `regions_processed`, still processes
every other (successful) region, and always returns the generic success
code 200 regardless of failures. -/
theorem C6_driver_isolates_region_failures (w : World) (env : Option String) :
    (lambda_handler w env).1.statusCode = 200 ∧
    (∀ region, region ∈ get_allowed_regions env → ∀ e,
      process_region (w.state region) region = Except.error e →
      region ∉ (lambda_handler w env).1.body.regions_processed ∧
      ∃ m, ("Error processing region " ++ region ++ ": " ++ m) ∈
        (lambda_handler w env).1.body.errors) ∧
    (∀ region, region ∈ get_allowed_regions env → ∀ res st,
      process_region (w.state region) region = Except.ok (res, st) →
      region ∈ (lambda_handler w env).1.body.regions_processed) := by
  have hbody : (lambda_handler w env).1.body =
      ((get_allowed_regions env).foldl handleRegion
        ({ stopped_instances := [], scaled_down_asgs := [], errors := [],
           regions_processed := [] }, w)).1 := rfl
  obtain ⟨hp, hs, ⟨t2, herr⟩, hmem⟩ :=
    driver_fold w (get_allowed_regions env)
      ({ stopped_instances := [], scaled_down_asgs := [], errors := [],
         regions_processed := [] }, w)
      (fun n => rfl)
  refine ⟨rfl, ?_, ?_⟩
  · intro region hL e hperr
    have hbad : okClients (w.state region) = false := by
      cases hok : okClients (w.state region) with
      | false => rfl
      | true =>
        obtain ⟨hh1, hh2⟩ := okClients_true_flags _ hok
        rw [process_region_ok _ _ hh1 hh2] at hperr
        exact absurd hperr (by simp)
    constructor
    · rw [hbody, hp]
      intro hmem2
      simp only [List.nil_append] at hmem2
      rcases List.mem_filter.mp hmem2 with ⟨_, hpred⟩
      simp [hbad] at hpred
    · rw [hbody]
      exact hmem region hL hbad
  · intro region hL res st hpok
    have hok : okClients (w.state region) = true := by
      obtain ⟨hh1, hh2⟩ := process_region_ok_flags _ _ _ _ hpok
      unfold okClients
      rw [hh1, hh2]
      rfl
    rw [hbody, hp]
    simp only [List.nil_append]
    exact List.mem_filter.mpr ⟨hL, hok⟩

/-- Witness for C6 at `sampleWorld` with regions `bad-1,us-east-1`: the
region with the failing client constructor is omitted and reported in the
errors list, the other region is still processed, and the status code is
200. -/
theorem C6_witness :
    (lambda_handler sampleWorld (some "bad-1,us-east-1")).1.statusCode = 200 ∧
    "bad-1" ∉ (lambda_handler sampleWorld (some "bad-1,us-east-1")).1.body.regions_processed ∧
    (∃ m, ("Error processing region " ++ "bad-1" ++ ": " ++ m) ∈
      (lambda_handler sampleWorld (some "bad-1,us-east-1")).1.body.errors) ∧
    "us-east-1" ∈ (lambda_handler sampleWorld (some "bad-1,us-east-1")).1.body.regions_processed := by
  have h := C6_driver_isolates_region_failures sampleWorld (some "bad-1,us-east-1")
  have herr := h.2.1 "bad-1" (by decide) "could not create ec2 client in bad-1" rfl
  refine ⟨h.1, herr.1, herr.2, ?_⟩
  exact h.2.2 "us-east-1" (by decide) _ _ (process_region_ok sampleRegion "us-east-1" rfl rfl)

/-- Claim C10: the parsed region list is not deduplicated — a region
listed N times is processed N times and, when its passes succeed, appears
N times in `regions_processed`: its multiplicity in `regions_processed`
equals its multiplicity in the parsed list, which equals its multiplicity
among the stripped comma-separated fields. -/
theorem C10_duplicates_kept (w : World) (s region : String) (hne : region ≠ "")
    (h1 : (w.state region).ec2ClientFails = false)
    (h2 : (w.state region).asgClientFails = false) :
    List.count region (get_allowed_regions (some s)) =
      List.count region ((pySplit s ',').map pyStrip) ∧
    List.count region ((lambda_handler w (some s)).1.body.regions_processed) =
      List.count region (get_allowed_regions (some s)) := by
  have hok : okClients (w.state region) = true := by
    unfold okClients
    rw [h1, h2]
    rfl
  constructor
  · unfold get_allowed_regions
    simp only [Option.getD_some]
    exact List.count_filter (by simp [hne])
  · have hbody : (lambda_handler w (some s)).1.body =
        ((get_allowed_regions (some s)).foldl handleRegion
          ({ stopped_instances := [], scaled_down_asgs := [], errors := [],
             regions_processed := [] }, w)).1 := rfl
    obtain ⟨hp, _, _, _⟩ :=
      driver_fold w (get_allowed_regions (some s))
        ({ stopped_instances := [], scaled_down_asgs := [], errors := [],
           regions_processed := [] }, w)
        (fun n => rfl)
    rw [hbody, hp]
    simp only [List.nil_append]
    exact List.count_filter hok

/-- Witness for C10: `ALLOWED_REGIONS = "us-east-1, us-east-1"` yields
`us-east-1` twice in the parsed list and twice in `regions_processed`. -/
theorem C10_witness :
    List.count "us-east-1"
        ((lambda_handler sampleWorld (some "us-east-1, us-east-1")).1.body.regions_processed) =
      List.count "us-east-1" (get_allowed_regions (some "us-east-1, us-east-1")) ∧
    List.count "us-east-1" (get_allowed_regions (some "us-east-1, us-east-1")) = 2 := by
  refine ⟨(C10_duplicates_kept sampleWorld "us-east-1, us-east-1" "us-east-1"
    (by decide) rfl rfl).2, by decide⟩
